import Mathlib

/-!
Shallow embedding of `scripts/mcp-regression.py`, a three-transport MCP
regression harness.  Python values are modelled by `PyVal`, raised Python
exceptions by `Except PyExc`, and `json.loads` is passed as an explicit
function parameter (the adapters are parametric in it, exactly as the
script is parametric in the behaviour of the `json` module on the strings
it happens to receive).
-/

/-- Model of the Python/JSON values the script manipulates.  Dictionaries
are association lists with string keys (all dictionaries in the script come
from JSON parsing or literals with string keys); lookup takes the first
matching key. -/
inductive PyVal where
  | none : PyVal
  | bool : Bool → PyVal
  | int : Int → PyVal
  | str : String → PyVal
  | list : List PyVal → PyVal
  | dict : List (String × PyVal) → PyVal

mutual

/-- Structural equality on modelled values (Python `==` restricted to the
comparisons the script performs, which never mix types). -/
def PyVal.beq : PyVal → PyVal → Bool
  | .none, .none => true
  | .bool a, .bool b => a == b
  | .int a, .int b => a == b
  | .str a, .str b => a == b
  | .list xs, .list ys => PyVal.beqList xs ys
  | .dict es, .dict fs => PyVal.beqEntries es fs
  | _, _ => false

/-- Pointwise `PyVal.beq` on lists. -/
def PyVal.beqList : List PyVal → List PyVal → Bool
  | [], [] => true
  | x :: xs, y :: ys => PyVal.beq x y && PyVal.beqList xs ys
  | _, _ => false

/-- Pointwise `PyVal.beq` on dictionary entries. -/
def PyVal.beqEntries : List (String × PyVal) → List (String × PyVal) → Bool
  | [], [] => true
  | (k, v) :: es, (l, w) :: fs => k == l && PyVal.beq v w && PyVal.beqEntries es fs
  | _, _ => false

end

instance : BEq PyVal := ⟨PyVal.beq⟩

/-- Model of a raised Python exception, tagged with the class that the
interpreter would raise and the message `str(e)` renders to. -/
inductive PyExc where
  | attributeError : String → PyExc
  | typeError : String → PyExc
  | keyError : String → PyExc
  | valueError : String → PyExc
  | other : String → PyExc
deriving DecidableEq

/-- `str(e)` for a modelled exception. -/
def PyExc.str : PyExc → String
  | .attributeError m => m
  | .typeError m => m
  | .keyError m => m
  | .valueError m => m
  | .other m => m

/-- Python truthiness (`if content:` tests, `if ok:` in `check`). -/
def truthy : PyVal → Bool
  | .none => false
  | .bool b => b
  | .int n => n != 0
  | .str s => !s.isEmpty
  | .list xs => !xs.isEmpty
  | .dict es => !es.isEmpty

/-- Python `x == 0` for the values that can sit under a `"code"` key
(`True == 1`, `False == 0` in Python, so booleans compare numerically). -/
def pyEqZero : PyVal → Bool
  | .int n => n == 0
  | .bool b => b == false
  | _ => false

/-- Python `x[0]` on a modelled value: first element of a list, first
character of a string; a string-keyed dictionary raises `KeyError` on the
integer key `0`, everything else is not subscriptable. -/
def pySubscriptZero : PyVal → Except PyExc PyVal
  | .list [] => .error (.other "IndexError: list index out of range")
  | .list (x :: _) => .ok x
  | .str s =>
      match s.data with
      | [] => .error (.other "IndexError: string index out of range")
      | c :: _ => .ok (.str (String.singleton c))
  | .dict _ => .error (.keyError "0")
  | _ => .error (.typeError "object is not subscriptable")

/-- Python `x[k]` for a string key `k`: dictionary lookup (raising
`KeyError` when absent); strings and lists raise `TypeError` on a string
index, other values are not subscriptable. -/
def pySubscriptStr (x : PyVal) (k : String) : Except PyExc PyVal :=
  match x with
  | .dict es =>
      match es.lookup k with
      | some v => .ok v
      | Option.none => .error (.keyError k)
  | .str _ => .error (.typeError "string indices must be integers")
  | .list _ => .error (.typeError "list indices must be integers")
  | _ => .error (.typeError "object is not subscriptable")

/-- Does the character list `hay` start with `needle`? -/
def startsWithList : List Char → List Char → Bool
  | [], _ => true
  | _ :: _, [] => false
  | a :: as, b :: bs => a == b && startsWithList as bs

/-- Does `needle` occur as a contiguous run inside the second list? -/
def containsList (needle : List Char) : List Char → Bool
  | [] => needle.isEmpty
  | c :: rest => startsWithList needle (c :: rest) || containsList needle rest

/-- Python `s.startswith(pre)`. -/
def pyStartsWith (s pre : String) : Bool := startsWithList pre.data s.data

/-- Python substring test `sub in s`. -/
def containsSub (s sub : String) : Bool := containsList sub.data s.data

/-- Python `s.lower()` (on the ASCII data the script compares). -/
def pyLower (s : String) : String := ⟨s.data.map Char.toLower⟩

/-- Python `s.split("\n")`: split on each newline, keeping empty parts. -/
def splitNewlineAux : List Char → List Char → List String
  | [], acc => [⟨acc.reverse⟩]
  | c :: cs, acc =>
      if c == '\n' then ⟨acc.reverse⟩ :: splitNewlineAux cs []
      else splitNewlineAux cs (c :: acc)

/-- Python `s.split("\n")` on a string. -/
def pySplitNewline (s : String) : List String := splitNewlineAux s.data []

/-- Python `needle in x` for a string needle: key membership for
dictionaries, substring for strings, element membership for lists;
`TypeError` otherwise. -/
def pyInStr (needle : String) (x : PyVal) : Except PyExc Bool :=
  match x with
  | .dict es => .ok (es.any (fun kv => needle == kv.1))
  | .str s => .ok (containsSub s needle)
  | .list xs => .ok (xs.any (fun v => v == PyVal.str needle))
  | _ => .error (.typeError "argument is not iterable")

/-- The value the `try: return json.loads(content[0]["text"]) / except:
return content[0]["text"]` block of `extract` produces once the `"text"`
entry `t` has been read: parse it when it is a string that parses, return
it raw otherwise (`json.loads` raises `TypeError` on non-strings, and the
bare `except` then returns the raw value). -/
def textResult (loads : String → Except PyExc PyVal) (t : PyVal) : PyVal :=
  match t with
  | .str s =>
      match loads s with
      | .ok v => v
      | .error _ => .str s
  | other => other

/-- `extract` (script lines 14-20): unwrap `resp["result"]["content"][0]["text"]`,
JSON-parse the text when possible.  Mirrors the Python evaluation order:
`resp.get("result", {}).get("content", [])` raises `AttributeError` when
the `"result"` value is not a mapping; the truthiness test comes before the
subscript `content[0]`; the membership test `"text" in content[0]` may
raise; inside the `try` the subscript `content[0]["text"]` may raise, in
which case the bare `except` re-evaluates the same subscript and the same
exception propagates. -/
def extract (loads : String → Except PyExc PyVal) (resp : PyVal) : Except PyExc PyVal :=
  match resp with
  | .dict es =>
      match (es.lookup "result").getD (.dict []) with
      | .dict res =>
          let content := (res.lookup "content").getD (.list [])
          if truthy content then
            match pySubscriptZero content with
            | .error e => .error e
            | .ok c0 =>
                match pyInStr "text" c0 with
                | .error e => .error e
                | .ok b =>
                    if b then
                      match pySubscriptStr c0 "text" with
                      | .error e => .error e
                      | .ok t => .ok (textResult loads t)
                    else .ok resp
          else .ok resp
      | _ => .error (.attributeError "object has no attribute get")
  | _ => .ok resp

/-- Characters Python's `str.strip()` removes (the ASCII whitespace the
script can encounter on an HTTP line stream). -/
def isPySpace (c : Char) : Bool :=
  c == ' ' || c == '\t' || c == '\n' || c == '\r' || c == '\x0b' || c == '\x0c'

/-- Remove trailing `isPySpace` characters. -/
def stripEnd (l : List Char) : List Char :=
  (l.reverse.dropWhile isPySpace).reverse

/-- Python `str.strip()` on a character list: drop leading and trailing
whitespace. -/
def pyStripList (l : List Char) : List Char :=
  stripEnd (l.dropWhile isPySpace)

/-- Python `str.strip()`. -/
def pyStrip (s : String) : String := ⟨pyStripList s.data⟩

/-- Base URL of the HTTP/SSE server (script line 5, `MCP_HTTP`). -/
def MCP_HTTP : String := "http://localhost:8090"

/-- A dictionary is rendered as its entries; an error result is the
one-entry dictionary the adapters build on failure (`{"error": str(e)}`). -/
def errDict (msg : String) : PyVal := .dict [("error", .str msg)]

/-- The SSE listener thread (script lines 47-64) applied to the lines of
the event stream: a `event:` line records the pending event type, a
`data:` line enqueues `(event_type, stripped data)` and resets the type, a
blank line resets the type, any other line is ignored.  The accumulator is
the pending `event_type` (Python `None` initially). -/
def listenStream : List String → Option String → List (Option String × String)
  | [], _ => []
  | line :: rest, et =>
      if pyStartsWith line "event:" then
        listenStream rest (some (pyStrip (line.drop 6)))
      else if pyStartsWith line "data:" then
        (et, pyStrip (line.drop 5)) :: listenStream rest Option.none
      else if line == "" then
        listenStream rest Option.none
      else
        listenStream rest et

/-- Endpoint selection in `sse_call` (script lines 70-76): the argument is
the outcome of the first `q.get(timeout=3)` — `none` when it timed out.
Only an `endpoint`-typed event overrides the `"/messages"` fallback, and
its data is stripped once more. -/
def sseEndpoint (firstEvt : Option (Option String × String)) : String :=
  match firstEvt with
  | some (et, data) => if et == some "endpoint" then pyStrip data else "/messages"
  | Option.none => "/messages"

/-- URL construction for the POST in `sse_call` (script line 79): an
endpoint starting with `/` is appended to the base URL, anything else is
used verbatim as the full URL. -/
def sseUrl (endpoint : String) : String :=
  if pyStartsWith endpoint "/" then MCP_HTTP ++ endpoint else endpoint

/-- The polling loop of `sse_call` (script lines 83-93) over the finite
list of events the queue delivers before the overall deadline; the boolean
accumulator is the `stop` flag.  A `message` event sets `stop` and returns
`extract(json.loads(data))`; if that parse or unwrap raises, the bare
`except: continue` swallows it (with `stop` already set).  Exhausting the
list models the deadline elapsing: `stop` is set and the timeout error
result returned. -/
def sseLoop (loads : String → Except PyExc PyVal) :
    List (Option String × String) → Bool → PyVal × Bool
  | [], _ => (errDict "no SSE response within 10s", true)
  | (et, data) :: rest, stop =>
      if et == some "message" then
        match loads data >>= extract loads with
        | .ok v => (v, true)
        | .error _ => sseLoop loads rest true
      else sseLoop loads rest stop

/-- `sse_call` (script lines 40-94).  The transport environment is passed
in explicitly: `post url` is the outcome of `requests.post` at the URL the
call builds (`some e` when it raises), `firstEvt` the outcome of the first
dequeue, `loopEvts` the events dequeued by the polling loop before the
deadline.  Returns the result value together with the final state of the
`stop` flag; an exception reaching the outer `except` (the POST) yields
the error dictionary with the flag still clear. -/
def sse_call (loads : String → Except PyExc PyVal) (post : String → Option PyExc)
    (firstEvt : Option (Option String × String))
    (loopEvts : List (Option String × String)) : PyVal × Bool :=
  match post (sseUrl (sseEndpoint firstEvt)) with
  | some e => (errDict e.str, false)
  | Option.none => sseLoop loads loopEvts false

/-- `http_call` (script lines 22-26): the transport outcome `postJson`
models `requests.post(...).json()` — either the parsed body or the
exception the POST/JSON decode raised.  The body feeds `extract`; any
exception is caught and converted to `{"error": str(e)}`. -/
def http_call (loads : String → Except PyExc PyVal)
    (postJson : Except PyExc PyVal) : PyVal :=
  match postJson >>= extract loads with
  | .ok v => v
  | .error e => errDict e.str

/-- Line selection in `stdio_call` (script lines 33-35): strip the whole
output, split on newlines, strip each line, take the first one starting
with a brace. -/
def firstJsonLine (out : String) : Option String :=
  ((pySplitNewline (pyStrip out)).map pyStrip).find? (fun l => pyStartsWith l "\x7b")

/-- `stdio_call` (script lines 28-38): `procOut` models `subprocess.run` —
the captured stdout, or the exception it raised (timeout).  The first
brace-initial line is parsed and unwrapped; no such line yields
`{"error": "no JSON output"}`; any exception (including a parse failure of
the selected line) is caught and converted to `{"error": str(e)}`. -/
def stdio_call (loads : String → Except PyExc PyVal)
    (procOut : Except PyExc String) : PyVal :=
  match procOut with
  | .error e => errDict e.str
  | .ok out =>
      match firstJsonLine out with
      | Option.none => errDict "no JSON output"
      | some line =>
          match loads line >>= extract loads with
          | .ok v => v
          | .error e => errDict e.str

mutual

/-- Python `repr` of a modelled value, as used by `str()` on containers. -/
def pyRepr : PyVal → String
  | .none => "None"
  | .bool true => "True"
  | .bool false => "False"
  | .int n => toString n
  | .str s => "'" ++ s ++ "'"
  | .list xs => "[" ++ ", ".intercalate (pyReprList xs) ++ "]"
  | .dict es => "\x7b" ++ ", ".intercalate (pyReprEntries es) ++ "\x7d"

/-- `pyRepr` of each element of a list. -/
def pyReprList : List PyVal → List String
  | [] => []
  | x :: xs => pyRepr x :: pyReprList xs

/-- `pyRepr` of each dictionary entry. -/
def pyReprEntries : List (String × PyVal) → List String
  | [] => []
  | (k, v) :: es => ("'" ++ k ++ "': " ++ pyRepr v) :: pyReprEntries es

end

/-- Python `str()` of a modelled value: a string renders as itself, other
values as their `repr`. -/
def pyStr : PyVal → String
  | .str s => s
  | v => pyRepr v

/-- The failure line `check` records (script line 105):
`f"  ❌ [{proto}] {tool} → {s}"` with `s = str(result)[:140]`. -/
def failLine (proto tool : String) (result : PyVal) : String :=
  "  ❌ [" ++ proto ++ "] " ++ tool ++ " → " ++ (pyStr result).take 140

/-- The run-wide tally: the globals `PASS`, `FAIL`, `SKIP` and the
failure-line list `ERRORS` (script lines 11-12). -/
structure Tally where
  pass : Nat
  fail : Nat
  skip : Nat
  errors : List String

/-- The tally at process start: all counters zero, no failure lines. -/
def initTally : Tally := ⟨0, 0, 0, []⟩

/-- `check` (script lines 98-106): evaluate the predicate on the result,
treating a raised exception as `False` and any return value by its
truthiness; on success increment `PASS`, on failure increment `FAIL` and
append the formatted failure line to `ERRORS`.  Returns the boolean
outcome together with the updated tally. -/
def check (proto tool : String) (result : PyVal)
    (expect_fn : PyVal → Except PyExc PyVal) (t : Tally) : Bool × Tally :=
  let ok :=
    match expect_fn result with
    | .ok v => truthy v
    | .error _ => false
  if ok then
    (true, { t with pass := t.pass + 1 })
  else
    (false, { t with fail := t.fail + 1,
                     errors := t.errors ++ [failLine proto tool result] })

/-- `is_ok` (script line 108): a mapping whose `"code"` value compares
equal to `0` (`r.get("code")` defaults to `None`, which is not `0`). -/
def is_ok (r : PyVal) : Bool :=
  match r with
  | .dict es => pyEqZero ((es.lookup "code").getD .none)
  | _ => false

/-- `has_id` (script line 109): `is_ok(r) and r.get("data", {}).get("id")`.
Python's `and` returns the second operand, here the `"id"` value (or
`None`), whose truthiness `check` later tests; a non-mapping `"data"`
value makes the inner `.get` raise `AttributeError`. -/
def has_id (r : PyVal) : Except PyExc PyVal :=
  if is_ok r then
    match r with
    | .dict es =>
        match (es.lookup "data").getD (.dict []) with
        | .dict des => .ok ((des.lookup "id").getD .none)
        | _ => .error (.attributeError "object has no attribute get")
    | _ => .ok (.bool false)
  else .ok (.bool false)

/-- `ok_or_str` (script line 113): `is_ok`, or a string whose lowercasing
contains one of the success keywords. -/
def ok_or_str (r : PyVal) : Bool :=
  is_ok r ||
    (match r with
     | .str s => ["added", "removed", "deleted", "success"].any
         (fun w => containsSub (pyLower s) w)
     | _ => false)

/-- Key membership `k in r` for a mapping (false on non-mappings only via
the surrounding `isinstance` guards). -/
def hasKey (r : PyVal) (k : String) : Bool :=
  match r with
  | .dict es => es.any (fun kv => k == kv.1)
  | _ => false

/-- `isinstance(r, dict)` on a modelled value. -/
def PyVal.isDict : PyVal → Bool
  | .dict _ => true
  | _ => false

/-- The inline predicate of the `work_items.get_by_identifier` check
(script line 133): `lambda r: isinstance(r, dict)`. -/
def pred_get_by_identifier (r : PyVal) : Bool := r.isDict

/-- The inline predicate of the `files.upload` check (script line 164):
`lambda r: isinstance(r, dict) and "url" in r`. -/
def pred_files_upload (r : PyVal) : Bool := r.isDict && hasKey r "url"

/-- The inline predicate of the `proposals.get` check (script line 197):
`lambda r: isinstance(r, dict) and "code" in r`. -/
def pred_proposals_get (r : PyVal) : Bool := r.isDict && hasKey r "code"

/-- `sys.exit(1 if FAIL > 0 else 0)` (script line 216). -/
def exitCode (t : Tally) : Nat := if t.fail > 0 then 1 else 0

/-- The operations that mutate the tally during the run: a `check` call,
or one of the explicit `SKIP += n` statements (script lines 154, 158, 177,
192).  Nothing else in the script touches `PASS`, `FAIL`, `SKIP` or
`ERRORS`. -/
inductive TallyOp where
  | checkOp : String → String → PyVal → (PyVal → Except PyExc PyVal) → TallyOp
  | skipOp : Nat → TallyOp

/-- Apply one tally operation. -/
def applyOp (t : Tally) : TallyOp → Tally
  | .checkOp proto tool result expect_fn => (check proto tool result expect_fn t).2
  | .skipOp n => { t with skip := t.skip + n }

/-- The tally after a sequence of operations, starting from the initial
state. -/
def runOps (ops : List TallyOp) : Tally := ops.foldl applyOp initTally

/-- A concrete stand-in for `json.loads` that fails on every string; used
for closed instances on code paths that never reach the parser. -/
def loads0 : String → Except PyExc PyVal :=
  fun s => .error (.valueError ("Expecting value: " ++ s))

/-- A concrete stand-in for `json.loads` that parses the single string
`"[1]"`; used for closed instances of the parse-success paths. -/
def loadsDemo : String → Except PyExc PyVal :=
  fun s => if s == "[1]" then .ok (.list [.int 1]) else .error (.valueError s)

theorem head_mem_of_head?_eq {α : Type} {l : List α} {a : α}
    (h : l.head? = some a) : a ∈ l := by
  cases l with
  | nil => simp at h
  | cons b t =>
      simp only [List.head?_cons, Option.some.injEq] at h
      exact h ▸ List.mem_cons_self b t

theorem check_step (proto tool : String) (result : PyVal)
    (expect_fn : PyVal → Except PyExc PyVal) (t : Tally) :
    ((check proto tool result expect_fn t).2.skip = t.skip) ∧
    (((check proto tool result expect_fn t).2.pass = t.pass + 1 ∧
      (check proto tool result expect_fn t).2.fail = t.fail ∧
      (check proto tool result expect_fn t).2.errors = t.errors) ∨
     ((check proto tool result expect_fn t).2.pass = t.pass ∧
      (check proto tool result expect_fn t).2.fail = t.fail + 1 ∧
      (check proto tool result expect_fn t).2.errors =
        t.errors ++ [failLine proto tool result])) := by
  unfold check
  cases h : expect_fn result with
  | error e => simp
  | ok v =>
      cases hv : truthy v with
      | true => simp [hv]
      | false => simp [hv]

/-- C8: the process exit status (`sys.exit(1 if FAIL > 0 else 0)`) is `0`
exactly when the fail counter is `0` and `1` otherwise; the pass and skip
counters do not influence it. -/
theorem exit_status_zero_iff_no_failures (t : Tally) :
    (exitCode t = 0 ↔ t.fail = 0) ∧
    (exitCode t = 1 ↔ t.fail ≠ 0) ∧
    (∀ p s, exitCode { t with pass := p, skip := s } = exitCode t) := by
  refine ⟨?_, ?_, fun p s => ?_⟩ <;> simp only [exitCode] <;> split <;> omega

/-- C9: after any sequence of the operations that mutate the tally
(`check` calls and `SKIP += n` statements), the length of `ERRORS` equals
the `FAIL` counter: each failing check appends exactly one line, passing
checks and skips append nothing, and nothing else touches either. -/
theorem errors_length_eq_fail_counter (ops : List TallyOp) :
    (runOps ops).errors.length = (runOps ops).fail := by
  have step : ∀ (t : Tally) (op : TallyOp), t.errors.length = t.fail →
      (applyOp t op).errors.length = (applyOp t op).fail := by
    intro t op ht
    cases op with
    | skipOp n => simpa [applyOp] using ht
    | checkOp proto tool result expect_fn =>
        rcases (check_step proto tool result expect_fn t).2 with
          ⟨_, hf, he⟩ | ⟨_, hf, he⟩ <;>
          simp [applyOp, hf, he, ht]
  have main : ∀ (ops : List TallyOp) (t : Tally), t.errors.length = t.fail →
      (ops.foldl applyOp t).errors.length = (ops.foldl applyOp t).fail := by
    intro ops
    induction ops with
    | nil => intro t ht; exact ht
    | cons op rest ih =>
        intro t ht
        exact ih (applyOp t op) (step t op ht)
  exact main ops initTally rfl

/-- C3 counterexample: the inline predicate of the
`work_items.get_by_identifier` check, `lambda r: isinstance(r, dict)`,
evaluates to `True` on a transport-level error result such as
`{"error": "connection refused"}` — so not every defined predicate fails
on error results, contrary to the claim. -/
theorem error_result_passes_is_dict_pred :
    pred_get_by_identifier (errDict "connection refused") = true := rfl

/-- C3 (amended): a transport-level error result — a mapping whose single
entry is an `"error"` message — fails `is_ok`, `has_id` (which returns
`False`), `ok_or_str`, and the inline predicates of `files.upload` and
`proposals.get`; the inline predicate of `work_items.get_by_identifier`
(`isinstance(r, dict)`), however, succeeds on it. -/
theorem error_result_fails_structured_preds (s : String) :
    is_ok (errDict s) = false ∧
    has_id (errDict s) = .ok (.bool false) ∧
    ok_or_str (errDict s) = false ∧
    pred_files_upload (errDict s) = false ∧
    pred_proposals_get (errDict s) = false ∧
    pred_get_by_identifier (errDict s) = true := by
  refine ⟨rfl, ?_, rfl, rfl, rfl, rfl⟩
  simp [has_id, is_ok, errDict, pyEqZero, List.lookup]

/-- C4: every `check` call leaves `SKIP` alone and increments exactly one
of `PASS` and `FAIL` by exactly one — never both, never neither; on a pass
`ERRORS` is unchanged, on a failure exactly one formatted line containing
`str(result)` truncated to 140 characters is appended; a predicate that
raises is swallowed and counted as a failure. -/
theorem check_updates_tally_exactly_once (proto tool : String) (result : PyVal)
    (expect_fn : PyVal → Except PyExc PyVal) (t : Tally) :
    ((check proto tool result expect_fn t).2.skip = t.skip) ∧
    (((check proto tool result expect_fn t).2.pass = t.pass + 1 ∧
      (check proto tool result expect_fn t).2.fail = t.fail ∧
      (check proto tool result expect_fn t).2.errors = t.errors) ∨
     ((check proto tool result expect_fn t).2.pass = t.pass ∧
      (check proto tool result expect_fn t).2.fail = t.fail + 1 ∧
      (check proto tool result expect_fn t).2.errors =
        t.errors ++ [failLine proto tool result])) ∧
    (∀ e, expect_fn result = .error e →
      (check proto tool result expect_fn t).2.fail = t.fail + 1 ∧
      (check proto tool result expect_fn t).2.errors =
        t.errors ++ [failLine proto tool result]) := by
  refine ⟨(check_step proto tool result expect_fn t).1,
          (check_step proto tool result expect_fn t).2, ?_⟩
  intro e he
  unfold check
  simp [he]

/-- C4 witness: a predicate that raises makes the concrete check count one
failure and record the truncated failure line. -/
theorem check_updates_tally_exactly_once_witness :
    (check "HTTP" "projects.list" (.int 3)
        (fun _ => .error (.other "boom")) initTally).2.fail = initTally.fail + 1 ∧
    (check "HTTP" "projects.list" (.int 3)
        (fun _ => .error (.other "boom")) initTally).2.errors =
      initTally.errors ++ [failLine "HTTP" "projects.list" (.int 3)] :=
  (check_updates_tally_exactly_once "HTTP" "projects.list" (.int 3)
      (fun _ => .error (.other "boom")) initTally).2.2 (.other "boom") rfl

theorem sseLoop_no_message (loads : String → Except PyExc PyVal)
    (evts : List (Option String × String)) (b : Bool)
    (h : ∀ ev ∈ evts, ev.1 ≠ some "message") :
    sseLoop loads evts b = (errDict "no SSE response within 10s", true) := by
  induction evts generalizing b with
  | nil => rfl
  | cons ev rest ih =>
      obtain ⟨et, data⟩ := ev
      have h1 : et ≠ some "message" := h (et, data) (List.mem_cons_self _ _)
      rw [sseLoop, if_neg (by simpa using h1)]
      exact ih b (fun e he => h e (List.mem_cons_of_mem _ he))

theorem sseLoop_first_message (loads : String → Except PyExc PyVal)
    (pre : List (Option String × String)) (d : String)
    (rest : List (Option String × String)) (v : PyVal) (b : Bool)
    (hpre : ∀ ev ∈ pre, ev.1 ≠ some "message")
    (hv : loads d >>= extract loads = .ok v) :
    sseLoop loads (pre ++ (some "message", d) :: rest) b = (v, true) := by
  induction pre generalizing b with
  | nil =>
      rw [List.nil_append, sseLoop, if_pos (by simp), hv]
  | cons ev pre' ih =>
      obtain ⟨et, data⟩ := ev
      have h1 : et ≠ some "message" := hpre (et, data) (List.mem_cons_self _ _)
      rw [List.cons_append, sseLoop, if_neg (by simpa using h1)]
      exact ih b (fun e he => hpre e (List.mem_cons_of_mem _ he))

theorem sseLoop_stop_always_set (loads : String → Except PyExc PyVal)
    (evts : List (Option String × String)) (b : Bool) :
    (sseLoop loads evts b).2 = true := by
  induction evts generalizing b with
  | nil => rfl
  | cons ev rest ih =>
      obtain ⟨et, data⟩ := ev
      rw [sseLoop]
      split
      · cases h : loads data >>= extract loads with
        | ok v => simp [h]
        | error e => simpa [h] using ih true
      · exact ih b

/-- C2: none of the three transport adapters lets an exception reach its
caller — each is a total function into values — and on every
transport-level failure the returned value is the mapping
`{"error": <message string>}`: a raised POST/JSON decode for HTTP, a
raised `subprocess.run` or the absence of a JSON-looking output line for
stdio, and a raised POST or a deadline with no `message` event for SSE;
a body whose unwrapping raises is likewise converted. -/
theorem transport_failures_return_error_dict (loads : String → Except PyExc PyVal) :
    (∀ e, http_call loads (.error e) = errDict e.str) ∧
    (∀ v e, extract loads v = .error e → http_call loads (.ok v) = errDict e.str) ∧
    (∀ e, stdio_call loads (.error e) = errDict e.str) ∧
    (∀ out, firstJsonLine out = Option.none →
      stdio_call loads (.ok out) = errDict "no JSON output") ∧
    (∀ post firstEvt loopEvts e,
      post (sseUrl (sseEndpoint firstEvt)) = some e →
      sse_call loads post firstEvt loopEvts = (errDict e.str, false)) ∧
    (∀ post firstEvt loopEvts,
      post (sseUrl (sseEndpoint firstEvt)) = Option.none →
      (∀ ev ∈ loopEvts, ev.1 ≠ some "message") →
      (sse_call loads post firstEvt loopEvts).1 =
        errDict "no SSE response within 10s") := by
  refine ⟨fun e => rfl, fun v e hv => ?_, fun e => rfl, fun out hout => ?_,
          fun post firstEvt loopEvts e hpost => ?_,
          fun post firstEvt loopEvts hpost hmsg => ?_⟩
  · simp [http_call, bind, Except.bind, hv]
  · simp [stdio_call, hout]
  · simp [sse_call, hpost]
  · simp [sse_call, hpost, sseLoop_no_message loads loopEvts false hmsg]

/-- C2 witness: a stdout with no JSON line and an SSE stream with no
`message` event both yield the concrete error mappings. -/
theorem transport_failures_return_error_dict_witness :
    stdio_call loads0 (.ok "hello world") = errDict "no JSON output" ∧
    (sse_call loads0 (fun _ => Option.none) Option.none
        [(some "endpoint", "/x")]).1 = errDict "no SSE response within 10s" :=
  ⟨(transport_failures_return_error_dict loads0).2.2.2.1 "hello world" (by rfl),
   (transport_failures_return_error_dict loads0).2.2.2.2.2
     (fun _ => Option.none) Option.none [(some "endpoint", "/x")] rfl
     (by decide)⟩

/-- C7 counterexample: when the POST raises, `sse_call` returns the error
mapping through its outer `except` without ever setting the listener's
stop flag — the claim that every terminal outcome sets the flag fails. -/
theorem sse_exception_leaves_stop_clear :
    (sse_call loads0 (fun _ => some (.other "connection refused"))
        Option.none []).2 = false := rfl

/-- C7 (amended): the message-delivered and deadline-elapsed outcomes of
`sse_call` always set the stop flag before returning, but when an
exception reaches the outer handler (the POST raising) the call returns
the error mapping with the flag still clear. -/
theorem sse_stop_flag_characterization (loads : String → Except PyExc PyVal)
    (post : String → Option PyExc) (firstEvt : Option (Option String × String))
    (loopEvts : List (Option String × String)) :
    (post (sseUrl (sseEndpoint firstEvt)) = Option.none →
      (sse_call loads post firstEvt loopEvts).2 = true) ∧
    (∀ e, post (sseUrl (sseEndpoint firstEvt)) = some e →
      (sse_call loads post firstEvt loopEvts).2 = false) := by
  constructor
  · intro hpost
    simp [sse_call, hpost, sseLoop_stop_always_set]
  · intro e hpost
    simp [sse_call, hpost]

/-- C7 witness: with a POST that does not raise, the concrete call ends
with the stop flag set. -/
theorem sse_stop_flag_characterization_witness :
    (sse_call loads0 (fun _ => Option.none) Option.none []).2 = true :=
  (sse_stop_flag_characterization loads0 (fun _ => Option.none)
      Option.none []).1 rfl

/-- C6: once the POST has gone through, if the stream delivers no
`message` event before the overall deadline (the polling loop exhausts the
queued events), `sse_call` returns `{"error": "no SSE response within
10s"}` instead of hanging; if a `message` event does arrive first and its
data parses and unwraps, `sse_call` returns that parsed, normalized
payload. -/
theorem sse_message_or_timeout (loads : String → Except PyExc PyVal)
    (post : String → Option PyExc) (firstEvt : Option (Option String × String))
    (hpost : post (sseUrl (sseEndpoint firstEvt)) = Option.none) :
    (∀ loopEvts, (∀ ev ∈ loopEvts, ev.1 ≠ some "message") →
      sse_call loads post firstEvt loopEvts =
        (errDict "no SSE response within 10s", true)) ∧
    (∀ pre d rest v, (∀ ev ∈ pre, ev.1 ≠ some "message") →
      loads d >>= extract loads = .ok v →
      sse_call loads post firstEvt (pre ++ (some "message", d) :: rest) =
        (v, true)) := by
  constructor
  · intro loopEvts hmsg
    simp [sse_call, hpost, sseLoop_no_message loads loopEvts false hmsg]
  · intro pre d rest v hpre hv
    simp [sse_call, hpost, sseLoop_first_message loads pre d rest v false hpre hv]

/-- C6 witness: a non-`message` event followed by a `message` event whose
data parses makes the concrete call return the parsed payload with the
stop flag set. -/
theorem sse_message_or_timeout_witness :
    sse_call loadsDemo (fun _ => Option.none) Option.none
        [(some "ping", "z"), (some "message", "[1]")] =
      (PyVal.list [PyVal.int 1], true) :=
  (sse_message_or_timeout loadsDemo (fun _ => Option.none) Option.none rfl).2
    [(some "ping", "z")] "[1]" [] (PyVal.list [PyVal.int 1]) (by decide) rfl

theorem dropWhile_dropWhile_self {α : Type} (p : α → Bool) (l : List α) :
    (l.dropWhile p).dropWhile p = l.dropWhile p := by
  cases h : l.dropWhile p with
  | nil => rfl
  | cons a t =>
      have ha := List.head?_dropWhile_not p l
      rw [h] at ha
      simp only [List.head?_cons] at ha
      exact List.dropWhile_cons_of_neg (by simp [ha])

theorem stripEnd_stripEnd (l : List Char) : stripEnd (stripEnd l) = stripEnd l := by
  simp only [stripEnd, List.reverse_reverse]
  rw [dropWhile_dropWhile_self]

theorem stripEnd_head (l t : List Char) (a : Char) (h : stripEnd l = a :: t) :
    ∃ u, l = a :: u := by
  obtain ⟨u, hu⟩ := List.dropWhile_suffix (l := l.reverse) isPySpace
  have h3 := congrArg List.reverse hu
  simp only [List.reverse_append, List.reverse_reverse] at h3
  have h2 : l = stripEnd l ++ u.reverse := h3.symm
  rw [h] at h2
  exact ⟨t ++ u.reverse, by simpa using h2⟩

theorem pyStripList_pyStripList (l : List Char) :
    pyStripList (pyStripList l) = pyStripList l := by
  unfold pyStripList
  have hX : (stripEnd (l.dropWhile isPySpace)).dropWhile isPySpace
      = stripEnd (l.dropWhile isPySpace) := by
    cases hx : stripEnd (l.dropWhile isPySpace) with
    | nil => rfl
    | cons a t =>
        obtain ⟨u, hu⟩ := stripEnd_head (l.dropWhile isPySpace) t a hx
        have ha := List.head?_dropWhile_not isPySpace l
        rw [hu] at ha
        simp only [List.head?_cons] at ha
        exact List.dropWhile_cons_of_neg (by simp [ha])
  rw [hX, stripEnd_stripEnd]

theorem pyStrip_pyStrip (s : String) : pyStrip (pyStrip s) = pyStrip s :=
  congrArg String.mk (pyStripList_pyStripList s.data)

theorem listen_data_stripped (lines : List String) :
    ∀ (et : Option String) (ev : Option String × String),
      ev ∈ listenStream lines et → pyStrip ev.2 = ev.2 := by
  induction lines with
  | nil => intro et ev h; simp [listenStream] at h
  | cons line rest ih =>
      intro et ev h
      rw [listenStream] at h
      split at h
      · exact ih _ _ h
      · split at h
        · rcases List.mem_cons.mp h with h1 | h1
          · subst h1; exact pyStrip_pyStrip _
          · exact ih _ _ h1
        · split at h
          · exact ih _ _ h
          · exact ih _ _ h

theorem sseEndpoint_first_endpoint (lines : List String) (d : String)
    (h : (listenStream lines Option.none).head? = some (some "endpoint", d)) :
    sseEndpoint (listenStream lines Option.none).head? = d := by
  have hd : pyStrip d = d :=
    listen_data_stripped lines Option.none (some "endpoint", d)
      (head_mem_of_head?_eq h)
  rw [h]
  simp [sseEndpoint, hd]

/-- C5: the first event the listener queue yields after the ready wait
determines the POST path — an `endpoint`-typed event supplies its data as
the path, while a timed-out dequeue or an event of any other type leaves
the hardcoded `"/messages"` fallback in place. -/
theorem sse_endpoint_selection (lines : List String) :
    ((listenStream lines Option.none).head? = Option.none →
      sseEndpoint (listenStream lines Option.none).head? = "/messages") ∧
    (∀ et d, (listenStream lines Option.none).head? = some (et, d) →
      et ≠ some "endpoint" →
      sseEndpoint (listenStream lines Option.none).head? = "/messages") ∧
    (∀ d, (listenStream lines Option.none).head? = some (some "endpoint", d) →
      sseEndpoint (listenStream lines Option.none).head? = d) := by
  refine ⟨fun h => by rw [h]; rfl, fun et d h hne => ?_,
          fun d h => sseEndpoint_first_endpoint lines d h⟩
  rw [h]
  simp [sseEndpoint, hne]

/-- C5 witness: a stream announcing `event: endpoint` / `data: /custom`
makes the adapter use `/custom` as the POST path. -/
theorem sse_endpoint_selection_witness :
    sseEndpoint ((listenStream ["event: endpoint", "data: /custom"] Option.none).head?)
      = "/custom" :=
  (sse_endpoint_selection ["event: endpoint", "data: /custom"]).2.2 "/custom"
    (by decide)

/-- C10: when the dequeued `endpoint` event's data does not start with
`/`, the data string is used verbatim as the full POST URL; data starting
with `/` is appended to the base URL. -/
theorem sse_endpoint_url_construction (lines : List String) (d : String)
    (h : (listenStream lines Option.none).head? = some (some "endpoint", d)) :
    (pyStartsWith d "/" = false →
      sseUrl (sseEndpoint (listenStream lines Option.none).head?) = d) ∧
    (pyStartsWith d "/" = true →
      sseUrl (sseEndpoint (listenStream lines Option.none).head?) = MCP_HTTP ++ d) := by
  rw [sseEndpoint_first_endpoint lines d h]
  constructor
  · intro hs; simp [sseUrl, hs]
  · intro hs; simp [sseUrl, hs]

/-- C10 witness: an endpoint event carrying an absolute URL is posted to
verbatim, not appended to the base URL. -/
theorem sse_endpoint_url_construction_witness :
    sseUrl (sseEndpoint ((listenStream
        ["event: endpoint", "data: http://elsewhere/api"] Option.none).head?))
      = "http://elsewhere/api" :=
  (sse_endpoint_url_construction ["event: endpoint", "data: http://elsewhere/api"]
      "http://elsewhere/api" (by decide)).1 (by decide)

theorem any_eq_lookup_isSome {β : Type} (es : List (String × β)) (k : String) :
    (es.any fun kv => k == kv.1) = (es.lookup k).isSome := by
  induction es with
  | nil => rfl
  | cons e rest ih =>
      obtain ⟨a, b⟩ := e
      cases hak : (k == a) with
      | true => simp [List.lookup, hak]
      | false => simp [List.lookup, hak, ih]

theorem pySubscriptStr_ok (x : PyVal) (k : String) (t : PyVal)
    (h : pySubscriptStr x k = .ok t) :
    ∃ es, x = .dict es ∧ es.lookup k = some t := by
  cases x with
  | dict es =>
      cases hl : es.lookup k with
      | none => simp [pySubscriptStr, hl] at h
      | some v =>
          simp only [pySubscriptStr, hl, Except.ok.injEq] at h
          exact ⟨es, rfl, by rw [hl, h]⟩
  | none => simp [pySubscriptStr] at h
  | bool b => simp [pySubscriptStr] at h
  | int n => simp [pySubscriptStr] at h
  | str s => simp [pySubscriptStr] at h
  | list xs => simp [pySubscriptStr] at h

theorem pySubscriptZero_ok_dict (c : PyVal) (d : List (String × PyVal))
    (h : pySubscriptZero c = .ok (.dict d)) :
    ∃ cs, c = .list (.dict d :: cs) := by
  cases c with
  | list xs =>
      cases xs with
      | nil => simp [pySubscriptZero] at h
      | cons x cs =>
          simp only [pySubscriptZero, Except.ok.injEq] at h
          exact ⟨cs, by rw [h]⟩
  | str s =>
      cases hs : s.data with
      | nil => simp [pySubscriptZero, hs] at h
      | cons a as => simp [pySubscriptZero, hs] at h
  | none => simp [pySubscriptZero] at h
  | bool b => simp [pySubscriptZero] at h
  | int n => simp [pySubscriptZero] at h
  | dict es => simp [pySubscriptZero] at h

/-- C1 (amended): when the input is a mapping whose `result.content` is a
non-empty array whose first element is a mapping with a `"text"` entry,
`extract` returns the JSON-parse of that text when it is a string that
parses, and the raw text value unchanged otherwise; on every other input
`extract` either returns the input unchanged or raises an exception
(non-mapping `"result"` values, unsubscriptable `content`, first elements
that do not support the membership test, or string/list first elements
containing `"text"`), but never returns any other value. -/
theorem extract_normalization (loads : String → Except PyExc PyVal) (resp : PyVal) :
    (∀ es res c0es cs t,
      resp = .dict es →
      es.lookup "result" = some (.dict res) →
      res.lookup "content" = some (.list (.dict c0es :: cs)) →
      c0es.lookup "text" = some t →
      extract loads resp = .ok (textResult loads t)) ∧
    (extract loads resp = .ok resp ∨
     (∃ e, extract loads resp = .error e) ∨
     (∃ es res c0es cs t,
        resp = .dict es ∧
        es.lookup "result" = some (.dict res) ∧
        res.lookup "content" = some (.list (.dict c0es :: cs)) ∧
        c0es.lookup "text" = some t ∧
        extract loads resp = .ok (textResult loads t))) := by
  constructor
  · intro es res c0es cs t h1 h2 h3 h4
    subst h1
    have hb : (c0es.any fun kv => "text" == kv.1) = true := by
      rw [any_eq_lookup_isSome, h4]
      rfl
    simp [extract, h2, h3, truthy, pySubscriptZero, pyInStr, hb, pySubscriptStr, h4]
  · cases resp with
    | dict es =>
        cases hres : es.lookup "result" with
        | none => left; simp [extract, hres, truthy, List.lookup]
        | some rv =>
            cases rv with
            | dict res =>
                cases hcon : res.lookup "content" with
                | none => left; simp [extract, hres, hcon, truthy]
                | some c =>
                    cases htr : truthy c with
                    | false => left; simp [extract, hres, hcon, htr]
                    | true =>
                        cases hz : pySubscriptZero c with
                        | error e =>
                            right; left
                            exact ⟨e, by simp [extract, hres, hcon, htr, hz]⟩
                        | ok c0 =>
                            cases hw : pyInStr "text" c0 with
                            | error e =>
                                right; left
                                exact ⟨e, by simp [extract, hres, hcon, htr, hz, hw]⟩
                            | ok b =>
                                cases b with
                                | false =>
                                    left
                                    simp [extract, hres, hcon, htr, hz, hw]
                                | true =>
                                    cases hsub : pySubscriptStr c0 "text" with
                                    | error e =>
                                        right; left
                                        exact ⟨e, by
                                          simp [extract, hres, hcon, htr, hz, hw, hsub]⟩
                                    | ok t =>
                                        obtain ⟨c0es, hc0, hlt⟩ :=
                                          pySubscriptStr_ok c0 "text" t hsub
                                        subst hc0
                                        obtain ⟨cs, hc⟩ :=
                                          pySubscriptZero_ok_dict c c0es hz
                                        subst hc
                                        right; right
                                        exact ⟨es, res, c0es, cs, t, rfl, hres, hcon, hlt,
                                          by simp [extract, hres, hcon, htr, hz, hw, hsub]⟩
            | none =>
                right; left
                exact ⟨.attributeError "object has no attribute get",
                  by simp [extract, hres]⟩
            | bool b =>
                right; left
                exact ⟨.attributeError "object has no attribute get",
                  by simp [extract, hres]⟩
            | int n =>
                right; left
                exact ⟨.attributeError "object has no attribute get",
                  by simp [extract, hres]⟩
            | str s =>
                right; left
                exact ⟨.attributeError "object has no attribute get",
                  by simp [extract, hres]⟩
            | list xs =>
                right; left
                exact ⟨.attributeError "object has no attribute get",
                  by simp [extract, hres]⟩
    | none => left; rfl
    | bool b => left; rfl
    | int n => left; rfl
    | str s => left; rfl
    | list xs => left; rfl

/-- C1 counterexample: on the mapping `{"result": 5}` — which matches
neither the text-envelope shape nor, per the claim, should be altered —
the Python code raises `AttributeError` (`5` has no `.get`), so `extract`
does not return the input unchanged. -/
theorem extract_raises_on_nonmapping_result :
    extract loads0 (.dict [("result", .int 5)]) =
      .error (.attributeError "object has no attribute get") ∧
    extract loads0 (.dict [("result", .int 5)]) ≠
      .ok (.dict [("result", .int 5)]) := by
  constructor
  · rfl
  · intro h
    simp [extract, List.lookup] at h

/-- C1 witness: a well-formed envelope whose text parses yields the parsed
value. -/
theorem extract_normalization_witness :
    extract loadsDemo
        (.dict [("result", .dict [("content",
            .list [.dict [("text", .str "[1]")]])])]) =
      .ok (.list [.int 1]) := by
  have h := (extract_normalization loadsDemo
      (.dict [("result", .dict [("content",
          .list [.dict [("text", .str "[1]")]])])])).1
      [("result", .dict [("content", .list [.dict [("text", .str "[1]")]])])]
      [("content", .list [.dict [("text", .str "[1]")]])]
      [("text", .str "[1]")] [] (.str "[1]") rfl (by rfl) (by rfl) (by rfl)
  rw [h]
  rfl
